import Mathlib

/-!
Shallow embedding of the MSP1000 miniature-spectrometer client driver
(`minispec.py`, with its legacy variant `msp1000.py`): UDP beacon
discovery, the marker-scanning receive loop, the spectrum
post-processing pipeline, the dark-frame state and the
wavelength-calibration polynomial.

Modelling conventions:
* byte strings are `List Nat` (one `Nat` per byte);
* sample values are `ℚ`, wall-clock times and durations `ℤ`;
* the network is an explicit finite schedule of arrival events,
  so every loop is structural recursion over that schedule;
* Python exceptions are explicit error results (`Except`, or an
  outcome constructor carrying the exception name).
-/

namespace MinispecPy

/-- Bytes of an ASCII string literal. -/
def strBytes (s : String) : List Nat := s.toList.map Char.toNat

/-- ASCII comma, the field delimiter of discovery beacons. -/
def commaByte : Nat := 44

/-- The discovery beacon marker `b'msp1000'`. -/
def msp1000Bytes : List Nat := strBytes "msp1000"

/-- Python substring containment `needle in haystack` on byte strings. -/
def containsSub (haystack needle : List Nat) : Bool :=
  (List.range (haystack.length + 1)).any
    (fun i => (haystack.drop i).take needle.length == needle)

/-!
## Discovery (`find_devices`, lines 29-68 of `minispec.py`)

`processDatagram` embeds the body of the receive loop:

```python
if data.find(b'msp1000') == 0:
    iface, serial = data.split(b',')[:2]
    spectrometers.add((address, iface[7:], serial))
```

`data.find(b'msp1000') == 0` holds exactly when the datagram starts
with the marker.  The two-place tuple unpacking raises `ValueError`
when `split` yields a single field (no comma in the datagram); this is
the `Except.error` case.  A non-matching datagram is skipped
(`Except.ok none`).
-/

def processDatagram (data : List Nat) :
    Except Unit (Option (List Nat × List Nat)) :=
  if data.take 7 = msp1000Bytes then
    match (List.splitOn commaByte data).take 2 with
    | [iface, serial] => .ok (some (iface.drop 7, serial))
    | _ => .error ()
  else
    .ok none

/-- A discovered spectrometer: (source address id, interface, serial). -/
abbrev Found := Nat × List Nat × List Nat

/-- Outcome of a `find_devices` run: a normal return with the result
set, or a propagating Python exception.  Both record whether
`sock.close()` was reached and the wall-clock time at the end. -/
inductive DiscoverOutcome where
  | ret (found : List Found) (sockClosed : Bool) (t : ℤ)
  | exc (e : String) (sockClosed : Bool) (t : ℤ)
deriving DecidableEq

/-- `set.add` on the result collection (deduplicating insert). -/
def insertFound (b : Found) (found : List Found) : List Found :=
  if b ∈ found then found else found ++ [b]

/-- The `while (time.time() - tstart) < search_timeout` loop of
`find_devices`, with `tstart = 0`.  The environment is a schedule of
datagram events `(arrivalTime, address, data)` in arrival order.
`sock.recvfrom` at time `now` returns the next event if it arrives
within `sock_timeout`, and otherwise raises `socket.timeout` — which
the source does not catch, so the loop aborts with the socket left
open.  A `ValueError` from `processDatagram` likewise propagates. -/
def findDevicesLoop (find_first : Bool) (sock_timeout search_timeout : ℤ) :
    ℤ → List (ℤ × Nat × List Nat) → List Found → DiscoverOutcome
  | now, [], found =>
    if now < search_timeout then
      .exc "socket.timeout" false (now + sock_timeout)
    else
      .ret found true now
  | now, (arr, addr, data) :: rest, found =>
    if now < search_timeout then
      if arr ≤ now + sock_timeout then
        match processDatagram data with
        | .error _ => .exc "ValueError" false (max now arr)
        | .ok none =>
            findDevicesLoop find_first sock_timeout search_timeout
              (max now arr) rest found
        | .ok (some (iface, serial)) =>
            let found2 := insertFound (addr, iface, serial) found
            if find_first then
              .ret found2 true (max now arr)
            else
              findDevicesLoop find_first sock_timeout search_timeout
                (max now arr) rest found2
      else
        .exc "socket.timeout" false (now + sock_timeout)
    else
      .ret found true now

/-- `find_devices`: run the discovery loop from time 0 with an empty
result set. -/
def find_devices (find_first : Bool) (sock_timeout search_timeout : ℤ)
    (events : List (ℤ × Nat × List Nat)) : DiscoverOutcome :=
  findDevicesLoop find_first sock_timeout search_timeout 0 events []

/-!
## The receive loop (`_receive_message`, lines 351-379 of `minispec.py`)

```python
msg = self.ssl_sock.recv(strlen)
tstart = time.time()
if magic is not None:
    while (magic not in msg) and (time.time()-tstart) < timeout:
        msg = self.ssl_sock.recv(strlen)
return msg
```

The stream of `recv` results is the first chunk plus a list of
`(elapsed, chunk)` pairs, where `elapsed` is the wall-clock time since
`tstart` observed at the loop-condition check that precedes receiving
`chunk`.  `none` marks the stream running dry (the model's boundary:
the source would block inside `recv`).
-/

def receiveLoop (magic : List Nat) (timeout : ℤ) :
    List Nat → List (ℤ × List Nat) → Option (List Nat)
  | msg, [] =>
    if containsSub msg magic then some msg else none
  | msg, (t, c) :: rest =>
    if containsSub msg magic then some msg
    else if t < timeout then receiveLoop magic timeout c rest
    else some msg

def receive_message (magic : Option (List Nat)) (timeout : ℤ)
    (first : List Nat) (rest : List (ℤ × List Nat)) : Option (List Nat) :=
  match magic with
  | none => some first
  | some m => receiveLoop m timeout first rest

/-- The `b'spectrum:'` response marker. -/
def spectrumMagic : List Nat := strBytes "spectrum:"

/-!
## Spectrum post-processing (`spectrum`, lines 165-185 of `minispec.py`)

```python
spectrum = spectrum_raw[32:3680].astype('float32')
ccd_offset = spectrum_raw[17:30]
spectrum -= ccd_offset.mean()
if self._dark is not None:
    spectrum -= self._dark
```
-/

/-- The guard-pixel band `spectrum_raw[17:30]`. -/
def guard_slice (raw : List ℚ) : List ℚ := (raw.drop 17).take 13

/-- `ccd_offset.mean()`. -/
def guard_mean (raw : List ℚ) : ℚ :=
  (guard_slice raw).sum / ((guard_slice raw).length : ℚ)

/-- The optical band `spectrum_raw[32:3680]`. -/
def optical_slice (raw : List ℚ) : List ℚ := (raw.drop 32).take 3648

/-- The raw-to-processed conversion, parametrised by the dark-frame
state (`none` models `self._dark = None`). -/
def spectrum (raw : List ℚ) (dark : Option (List ℚ)) : List ℚ :=
  match dark with
  | none => (optical_slice raw).map (fun x => x - guard_mean raw)
  | some d =>
      List.zipWith (fun x y => x - y)
        ((optical_slice raw).map (fun x => x - guard_mean raw)) d

/-!
## Dark-frame state (lines 84, 196-218 of `minispec.py`)
-/

/-- `self._dark = np.zeros(3648)` in `__init__`. -/
def init_dark : Option (List ℚ) := some (List.replicate 3648 0)

/-- The `dark` property getter. -/
def dark_get (cur : Option (List ℚ)) : Option (List ℚ) := cur

/-- The `dark` property setter:
`if len(spectrum) == 3648: self._dark = spectrum` — no `else`, no
exception. -/
def dark_set (cur : Option (List ℚ)) (s : List ℚ) : Option (List ℚ) :=
  if s.length = 3648 then some s else cur

/-- `reset_dark`:  `self._dark = None`. -/
def dark_reset (_cur : Option (List ℚ)) : Option (List ℚ) := none

/-!
## Calibration polynomial (lines 289-320 of `minispec.py`)

```python
out = 0
for i, coeff in enumerate(self._calibration[::-1]):
    out += coeff * (idx**i)
```
-/

/-- `px_to_wavelength`: fold over the reversed coefficient array,
carrying `(out, i)` exactly as `enumerate` does. -/
def px_to_wavelength (cal : List ℚ) (idx : ℚ) : ℚ :=
  (cal.reverse.foldl
    (fun (acc : ℚ × ℕ) coeff => (acc.1 + coeff * idx ^ acc.2, acc.2 + 1))
    ((0 : ℚ), (0 : ℕ))).1

/-- `wavelengths`: the polynomial evaluated at pixel indices 0..3647. -/
def wavelengths (cal : List ℚ) : List ℚ :=
  (List.map (Nat.cast : ℕ → ℚ) (List.range 3648)).map (px_to_wavelength cal)

/-!
## Setting the calibration (lines 256-287 of `minispec.py`)

```python
cal_1, cal_2, cal_3, cal_4 = coefficients
float(cal_1); float(cal_2); float(cal_3); float(cal_4)
msg = 'set_cal...'.format(...)
self._send_message(msg.encode())
self.update_calibration()
```

A caller-supplied coefficient is a Python value: a finite number, one
of the non-finite floats `inf`, `-inf`, `nan`, or a non-numeric value
(modelled by `other`; Python's numeric string literals are not
modelled).  `float(x)` succeeds on every numeric value — including the
non-finite floats — and raises `ValueError`/`TypeError` otherwise.
-/

inductive PyVal where
  | num (q : ℚ)
  | inf
  | ninf
  | nan
  | other (s : String)
deriving DecidableEq

/-- Python `float(x)`: `none` models the raised conversion error. -/
def pyFloat : PyVal → Option PyVal
  | .num q => some (.num q)
  | .inf => some .inf
  | .ninf => some .ninf
  | .nan => some .nan
  | .other _ => none

/-- Finite numeric values (spec: "finite numeric"). -/
def isFiniteNum : PyVal → Bool
  | .num _ => true
  | _ => false

/-- `update_calibration` (lines 220-231): the device's reply to
`get_calibration` (modelled post-parse, as the list of comma-separated
float fields after the 12-byte prefix) is stored, first four fields
only: `np.array(msg, dtype='float32')[:4]`. -/
def update_calibration (replyFields : List ℚ) : List ℚ :=
  replyFields.take 4

/-- The `calibration` setter.  Result: the `set_cal` command that was
sent (`none` when an exception aborted before `_send_message`) and the
stored coefficient array afterwards. -/
def set_calibration (c1 c2 c3 c4 : PyVal) (oldCal : List ℚ)
    (replyFields : List ℚ) :
    Option (PyVal × PyVal × PyVal × PyVal) × List ℚ :=
  match pyFloat c1, pyFloat c2, pyFloat c3, pyFloat c4 with
  | some _, some _, some _, some _ =>
      (some (c1, c2, c3, c4), update_calibration replyFields)
  | _, _, _, _ => (none, oldCal)

/-!
## Opening a session (`open`, lines 90-111 of `minispec.py`)

```python
try:
    self.ssl_sock = ssl.wrap_socket(sock)
    self.ssl_sock.connect((hostname, port))
    self.update_calibration()
except socket.error as msg:
    print("Error: ...".format(msg))
    sock.close()
```
-/

/-- The environment's verdict on one connection attempt: success (with
the calibration fields the device then reports), or a `socket.error`
(TLS handshake errors are `OSError` subclasses, hence caught too). -/
inductive ConnectAttempt where
  | success (replyFields : List ℚ)
  | sockError (emsg : String)

structure OpenOutcome where
  raised : Option String
  printed : Option String
  sockClosed : Bool
  sessionOpen : Bool
  calibration : List ℚ
deriving DecidableEq

/-- `Minispec.open`.  On `socket.error` the handler prints, closes the
socket and falls off the end of the method: nothing propagates to the
caller. -/
def Minispec_open (initCal : List ℚ) : ConnectAttempt → OpenOutcome
  | .success reply =>
      { raised := none, printed := none, sockClosed := false,
        sessionOpen := true, calibration := update_calibration reply }
  | .sockError m =>
      { raised := none, printed := some ("Error: " ++ m ++ "."),
        sockClosed := true, sessionOpen := false, calibration := initCal }

/-- The spec's end-to-end scenario buffer: 3694 raw samples whose
guard band `[17:30)` averages 100 and whose optical band `[32:3680)`
is all 150 (the remaining pixels are 0). -/
def scenarioRaw : List ℚ :=
  List.replicate 17 0 ++ (List.replicate 13 100 ++ (List.replicate 2 0 ++
    (List.replicate 3648 150 ++ List.replicate 14 0)))

/-!
## Helper lemmas
-/

theorem scenarioRaw_drop_17 :
    scenarioRaw.drop 17 = List.replicate 13 (100 : ℚ) ++
      (List.replicate 2 0 ++ (List.replicate 3648 150 ++ List.replicate 14 0)) := by
  rw [scenarioRaw]
  exact List.drop_left' (by simp)

theorem scenarioRaw_drop_30 :
    scenarioRaw.drop 30 = List.replicate 2 (0 : ℚ) ++
      (List.replicate 3648 150 ++ List.replicate 14 0) := by
  rw [show (30 : ℕ) = 17 + 13 by norm_num, ← List.drop_drop, scenarioRaw_drop_17]
  exact List.drop_left' (by simp)

theorem scenarioRaw_drop_32 :
    scenarioRaw.drop 32 = List.replicate 3648 (150 : ℚ) ++ List.replicate 14 0 := by
  rw [show (32 : ℕ) = 30 + 2 by norm_num, ← List.drop_drop, scenarioRaw_drop_30]
  exact List.drop_left' (by simp)

theorem scenarioRaw_guard : guard_slice scenarioRaw = List.replicate 13 100 := by
  rw [guard_slice, scenarioRaw_drop_17]
  exact List.take_left' (by simp)

theorem scenarioRaw_optical :
    optical_slice scenarioRaw = List.replicate 3648 150 := by
  rw [optical_slice, scenarioRaw_drop_32]
  exact List.take_left' (by rw [List.length_replicate])

theorem scenarioRaw_length : scenarioRaw.length = 3694 := by
  simp only [scenarioRaw, List.length_append, List.length_replicate]

/-- Subtracting a long-enough all-zero list pointwise is the identity. -/
theorem zipWith_sub_replicate_zero (l : List ℚ) : ∀ n : ℕ, l.length ≤ n →
    List.zipWith (fun x y => x - y) l (List.replicate n (0 : ℚ)) = l := by
  induction l with
  | nil => intro n _; simp
  | cons x xs ih =>
      intro n hn
      cases n with
      | zero => simp at hn
      | succ m =>
          simp only [List.replicate_succ, List.zipWith_cons_cons, sub_zero]
          rw [ih m (by simpa using hn)]

/-!
## Claim theorems
-/

/-- C1: `_receive_message` does not reassemble a response split across
two `recv` chunks.  With the first chunk `spectrum:` plus a partial
payload (`[1, 2]`) and the remainder (`[3, 4]`) pending in a second
chunk, the loop exits on the first chunk — the marker is already a
substring of it — and returns it alone, not the complete
marker-plus-payload bytes the claim demands. -/
theorem receive_message_truncates_split_payload :
    receive_message (some spectrumMagic) 5 (spectrumMagic ++ [1, 2])
        [(0, [3, 4])]
      = some (spectrumMagic ++ [1, 2]) ∧
    spectrumMagic ++ [1, 2] ≠ spectrumMagic ++ [1, 2, 3, 4] := by
  decide

/-- C2: when no received chunk contains the marker within the timeout,
`_receive_message` returns the last garbage chunk instead of surfacing
a timeout error.  Chatter `ok` then `temp:42` arrives, the next
condition check sees 6 seconds elapsed (≥ the 5-second timeout), the
loop exits and the non-matching chunk `temp:42` is returned; the
matching third chunk is never read. -/
theorem receive_message_timeout_returns_garbage :
    receive_message (some spectrumMagic) 5 (strBytes "ok")
        [(1, strBytes "temp:42"), (6, spectrumMagic ++ [9])]
      = some (strBytes "temp:42") ∧
    containsSub (strBytes "temp:42") spectrumMagic = false := by
  decide

/-- C3: a datagram that begins with `msp1000` but contains no comma
makes `find_devices` raise `ValueError` (two-place unpacking of a
one-element split), with the socket left open — it is not silently
discarded.  A datagram without the marker is silently skipped: the run
continues, a later valid beacon is parsed, and the loop returns
normally with only the valid announcement in the result set. -/
theorem find_devices_crashes_on_commaless_beacon :
    find_devices false 3 3 [(0, 5, strBytes "msp1000wlan0")]
      = .exc "ValueError" false 0 ∧
    find_devices false 3 3
        [(2, 5, strBytes "noise"), (4, 6, strBytes "msp1000wlan0,serial1")]
      = .ret [(6, strBytes "wlan0", strBytes "serial1")] true 4 := by
  decide

/-- C4: the `dark` setter silently ignores a sequence whose length is
not 3648: no error is signalled (the setter has no error outcome at
all) and whatever dark frame was in place before — any `cur` — stays
in place unchanged. -/
theorem dark_set_silently_ignores_bad_length (cur : Option (List ℚ)) :
    dark_set cur [1, 2, 3] = cur := by
  simp [dark_set]

/-- C8: with zero datagrams arriving, `find_devices` terminates within
`searchWindow + sock_timeout` but by raising `socket.timeout` out of
`recvfrom`, and `sock.close()` is never reached: the UDP socket is not
closed before the call ends. -/
theorem find_devices_timeout_leaves_socket_open :
    find_devices false 3 3 [] = .exc "socket.timeout" false 3 := by
  decide

/-- C7 counterexample: `float('inf')` succeeds in Python, so a
coefficient tuple containing the non-finite value `inf` is NOT
rejected: the `set_cal` command is sent with it, refuting the claim
that every tuple with a non-finite component is rejected before
sending. -/
theorem set_calibration_accepts_nonfinite :
    isFiniteNum PyVal.inf = false ∧
    (set_calibration PyVal.inf (.num 0) (.num 0) (.num 0)
        [0, 0, 1, 0] [1, 2, 3, 4]).1
      = some (PyVal.inf, .num 0, .num 0, .num 0) := by
  decide

/-- C7 amended: the setter rejects a tuple before sending exactly when
`float` conversion fails on some component (non-numeric input); when
all four convert — finite or not — it sends the `set_cal` command and
stores the first four fields of the device's `get_calibration` reply,
not the caller's input. -/
theorem set_calibration_amended (c1 c2 c3 c4 : PyVal)
    (oldCal replyFields : List ℚ) :
    ((pyFloat c1 = none ∨ pyFloat c2 = none ∨ pyFloat c3 = none ∨
        pyFloat c4 = none) →
      set_calibration c1 c2 c3 c4 oldCal replyFields = (none, oldCal)) ∧
    (pyFloat c1 ≠ none → pyFloat c2 ≠ none → pyFloat c3 ≠ none →
        pyFloat c4 ≠ none →
      set_calibration c1 c2 c3 c4 oldCal replyFields
        = (some (c1, c2, c3, c4), replyFields.take 4)) := by
  cases h1 : pyFloat c1 <;> cases h2 : pyFloat c2 <;>
    cases h3 : pyFloat c3 <;> cases h4 : pyFloat c4 <;>
      simp [set_calibration, update_calibration, h1, h2, h3, h4]

/-- C7 amended, witnessed at concrete inputs: a non-numeric first
coefficient is rejected with nothing sent and the stored array
untouched; four finite numerics are sent and the stored array becomes
the first four fields of the device's reply. -/
theorem set_calibration_amended_witness :
    set_calibration (.other "abc") (.num 0) (.num 0) (.num 0)
        [9] [1, 2, 3, 4, 5] = (none, [9]) ∧
    set_calibration (.num 1) (.num 2) (.num 3) (.num 4)
        [9] [1, 2, 3, 4, 5]
      = (some (.num 1, .num 2, .num 3, .num 4), [1, 2, 3, 4]) := by
  constructor
  · exact (set_calibration_amended (.other "abc") (.num 0) (.num 0)
      (.num 0) [9] [1, 2, 3, 4, 5]).1 (Or.inl rfl)
  · have h := (set_calibration_amended (.num 1) (.num 2) (.num 3)
      (.num 4) [9] [1, 2, 3, 4, 5]).2
      (by decide) (by decide) (by decide) (by decide)
    simpa using h

/-- C9 counterexample: on a concrete failed connection attempt, `open`
raises nothing to the caller (the `socket.error` is caught, printed
and dropped), refuting the claim that the failure surfaces as a
ConnectError. -/
theorem open_failure_not_raised :
    Minispec_open [0, 0, 1, 0] (.sockError "Connection refused")
      = { raised := none, printed := some "Error: Connection refused.",
          sockClosed := true, sessionOpen := false,
          calibration := [0, 0, 1, 0] } := by
  decide

/-- C9 amended: on every failed connection attempt, `open` reports the
failure by printing an error message — it does not raise to the
caller — releases the underlying socket, and leaves the session closed
and unusable with its state unchanged. -/
theorem open_failure_prints_and_closes (m : String) (initCal : List ℚ) :
    Minispec_open initCal (.sockError m)
      = { raised := none, printed := some ("Error: " ++ m ++ "."),
          sockClosed := true, sessionOpen := false,
          calibration := initCal } := rfl

/-- C5: with the stored coefficient array `[a, b, c, d]` read in
constant-first order as `(c0, c1, c2, c3) = (d, c, b, a)`,
`wavelengths` has exactly 3648 values, its value at each pixel index
`i < 3648` is the cubic `c0 + c1*i + c2*i^2 + c3*i^3`, and
`px_to_wavelength` evaluates the same cubic. -/
theorem wavelengths_cubic_constant_first (a b c d : ℚ) (i : ℕ)
    (hi : i < 3648) :
    (wavelengths [a, b, c, d]).length = 3648 ∧
    (wavelengths [a, b, c, d])[i]? =
      some (d + c * (i : ℚ) + b * (i : ℚ) ^ 2 + a * (i : ℚ) ^ 3) ∧
    px_to_wavelength [a, b, c, d] (i : ℚ) =
      d + c * (i : ℚ) + b * (i : ℚ) ^ 2 + a * (i : ℚ) ^ 3 := by
  have hpx : ∀ x : ℚ,
      px_to_wavelength [a, b, c, d] x = d + c * x + b * x ^ 2 + a * x ^ 3 := by
    intro x
    show (0 + d * x ^ 0 + c * x ^ 1 + b * x ^ 2 + a * x ^ 3) = _
    ring
  refine ⟨by rw [wavelengths, List.length_map, List.length_map,
    List.length_range], ?_, hpx i⟩
  rw [wavelengths, List.getElem?_map, List.getElem?_map,
    List.getElem?_range hi, Option.map_some', Option.map_some', hpx]

/-- C5 witness: at coefficients `[1, 2, 3, 4]` and pixel 2 the cubic
`4 + 3*2 + 2*4 + 1*8 = 26` is produced by both `wavelengths` and
`px_to_wavelength`. -/
theorem wavelengths_cubic_constant_first_witness :
    (2 : ℕ) < 3648 ∧
    ((wavelengths [1, 2, 3, 4]).length = 3648 ∧
     (wavelengths [1, 2, 3, 4])[2]? = some 26 ∧
     px_to_wavelength [1, 2, 3, 4] ((2 : ℕ) : ℚ) = 26) := by
  have h := wavelengths_cubic_constant_first 1 2 3 4 2 (by norm_num)
  norm_num at h
  exact ⟨by norm_num, h.1, h.2.1, h.2.2⟩

/-- C6: for a 3694-sample raw buffer, the processed spectrum has
exactly 3648 values; value `j` is the raw sample at index `32 + j`
minus the mean of the guard band `[17:30)`, minus element `j` of the
dark frame when one is set, with no clamping.  In particular, when the
guard band is all 100 and the optical band all 150, the output is all
50 with no dark frame and all 40 with an all-10 dark frame. -/
theorem spectrum_pointwise_scenarios (raw dark : List ℚ) (j : ℕ)
    (hr : raw.length = 3694) (hd : dark.length = 3648) (hj : j < 3648) :
    (spectrum raw none).length = 3648 ∧
    (spectrum raw (some dark)).length = 3648 ∧
    (spectrum raw none)[j]? = some (raw.getD (32 + j) 0 - guard_mean raw) ∧
    (spectrum raw (some dark))[j]?
      = some (raw.getD (32 + j) 0 - guard_mean raw - dark.getD j 0) ∧
    (guard_slice raw = List.replicate 13 100 →
      optical_slice raw = List.replicate 3648 150 →
      spectrum raw none = List.replicate 3648 50 ∧
      spectrum raw (some (List.replicate 3648 10))
        = List.replicate 3648 40) := by
  have hlen : (optical_slice raw).length = 3648 := by
    simp only [optical_slice, List.length_take, List.length_drop, hr]
    omega
  have hlen1 : (spectrum raw none).length = 3648 := by
    simp only [spectrum, List.length_map, hlen]
  have hopt : (optical_slice raw)[j]? = some (raw.getD (32 + j) 0) := by
    have hb : 32 + j < raw.length := by omega
    rw [optical_slice, List.getElem?_take, if_pos hj, List.getElem?_drop,
      List.getElem?_eq_getElem hb, List.getD_eq_getElem?_getD,
      List.getElem?_eq_getElem hb, Option.getD_some]
  have hnone : (spectrum raw none)[j]?
      = some (raw.getD (32 + j) 0 - guard_mean raw) := by
    rw [spectrum, List.getElem?_map, hopt, Option.map_some']
  refine ⟨hlen1, ?_, hnone, ?_, ?_⟩
  · simp only [spectrum, List.length_zipWith, List.length_map, hlen, hd]
    omega
  · have hdj : dark[j]? = some (dark.getD j 0) := by
      have hb : j < dark.length := by omega
      rw [List.getElem?_eq_getElem hb, List.getD_eq_getElem?_getD,
        List.getElem?_eq_getElem hb, Option.getD_some]
    have hm : (spectrum raw (some dark))
        = List.zipWith (fun x y => x - y) (spectrum raw none) dark := rfl
    rw [hm, List.getElem?_zipWith, hnone, hdj]
  · intro hg ho
    have hmean : guard_mean raw = 100 := by
      rw [guard_mean, hg, List.sum_replicate, List.length_replicate,
        nsmul_eq_mul]
      norm_num
    have h50 : spectrum raw none = List.replicate 3648 50 := by
      rw [spectrum, ho, hmean, List.map_replicate]
      norm_num
    refine ⟨h50, ?_⟩
    have hm : (spectrum raw (some (List.replicate 3648 10)))
        = List.zipWith (fun x y => x - y) (spectrum raw none)
            (List.replicate 3648 10) := rfl
    rw [hm, h50, List.zipWith_replicate]
    norm_num

/-- C6 witness: on the concrete scenario buffer the hypotheses hold and
the two end-to-end scenarios come out all-50 and all-40. -/
theorem spectrum_pointwise_scenarios_witness :
    scenarioRaw.length = 3694 ∧
    (List.replicate 3648 (10 : ℚ)).length = 3648 ∧
    (0 : ℕ) < 3648 ∧
    spectrum scenarioRaw none = List.replicate 3648 50 ∧
    spectrum scenarioRaw (some (List.replicate 3648 10))
      = List.replicate 3648 40 := by
  have h := spectrum_pointwise_scenarios scenarioRaw
    (List.replicate 3648 10) 0 scenarioRaw_length
    (List.length_replicate ..) (by norm_num)
  have hs := h.2.2.2.2 scenarioRaw_guard scenarioRaw_optical
  exact ⟨scenarioRaw_length, List.length_replicate .., by norm_num,
    hs.1, hs.2⟩

/-- C10: a fresh `Minispec` stores the length-3648 all-zero array as
its dark frame, not an absent value: the `dark` getter returns that
zero array, and on any 3694-sample raw buffer `spectrum` on a fresh
instance equals `spectrum` after `reset_dark` has cleared the dark
frame — subtracting the zero dark frame is the identity. -/
theorem fresh_dark_zero_equals_reset (raw : List ℚ)
    (cur : Option (List ℚ)) (hr : raw.length = 3694) :
    init_dark = some (List.replicate 3648 0) ∧
    dark_get init_dark ≠ none ∧
    dark_reset cur = none ∧
    spectrum raw init_dark = spectrum raw (dark_reset cur) := by
  refine ⟨rfl, by rw [dark_get, init_dark]; exact Option.some_ne_none _,
    rfl, ?_⟩
  show spectrum raw (some (List.replicate 3648 0)) = spectrum raw none
  show List.zipWith (fun x y => x - y) (spectrum raw none)
      (List.replicate 3648 0) = spectrum raw none
  apply zipWith_sub_replicate_zero
  simp only [spectrum, List.length_map, optical_slice, List.length_take,
    List.length_drop, hr]
  omega

/-- C10 witness: on a concrete 3694-sample buffer, the fresh-instance
spectrum equals the reset-instance spectrum. -/
theorem fresh_dark_zero_equals_reset_witness :
    (List.replicate 3694 (7 : ℚ)).length = 3694 ∧
    spectrum (List.replicate 3694 7) init_dark
      = spectrum (List.replicate 3694 7) none := by
  have h := fresh_dark_zero_equals_reset (List.replicate 3694 7) none
    (List.length_replicate ..)
  exact ⟨List.length_replicate .., h.2.2.2⟩

end MinispecPy
